import Mathlib

/-!
Verification of the slirp4netns rootless-networking core
(`networking_slirp4netns.go`): option parsing, command construction,
readiness synchronization, fallback child-IP computation, and
control-socket port registration.

The Go code is shallowly embedded: pure helpers become Lean functions,
the stdlib routines it calls (`strings.SplitN`, `strconv.Atoi`,
`net.ParseIP`, `net.ParseCIDR`) are modelled byte-for-byte on the
grammar fragments the code can observe, and the stateful loops
(`waitForSync`, the port-registration loop) are folds over explicit
event traces.  Machine integers are modelled as `Int`/`Nat` with
explicit `% 256` where the Go code performs byte arithmetic.
-/

/-! ### Go string helpers -/

/-- Splits a character list at every occurrence of `sep`
(the semantics of Go `strings.Split` for a one-character separator). -/
def splitOnChar (sep : Char) : List Char → List (List Char)
  | [] => [[]]
  | c :: rest =>
    let r := splitOnChar sep rest
    if c = sep then [] :: r
    else
      match r with
      | x :: xs => (c :: x) :: xs
      | [] => [[c]]

/-- Splits a character list at the first occurrence of `'='`, returning
the part before and the part after; `none` when no `'='` occurs. -/
def splitFirstEq : List Char → Option (List Char × List Char)
  | [] => none
  | c :: rest =>
    if c = '=' then some ([], rest)
    else
      match splitFirstEq rest with
      | none => none
      | some (k, v) => some (c :: k, v)

/-- Go `strings.SplitN(o, "=", 2)`: a one-element list when `o` contains
no `'='`, otherwise the text before the first `'='` and everything after
it (verbatim, further `'='` characters included). -/
def goSplitN2Eq (s : String) : List String :=
  match splitFirstEq s.toList with
  | none => [s]
  | some (k, v) => [String.mk k, String.mk v]

/-- Go `%q` formatting, restricted to the plain printable strings the
claims exercise: the string wrapped in double quotes. -/
def goQuote (s : String) : String :=
  "\"" ++ s ++ "\""

/-- Go `strconv.Atoi`: optional sign followed by at least one decimal
digit.  (Int64 overflow is not modelled; no claim involves values of
that size.) -/
def goAtoi (s : String) : Option Int :=
  match s.toList with
  | [] => none
  | c :: rest =>
    let signed : Bool × List Char :=
      if c = '-' then (true, rest)
      else if c = '+' then (false, rest)
      else (false, c :: rest)
    match signed with
    | (neg, digits) =>
      if digits = [] then none
      else if digits.all Char.isDigit then
        let n : Nat := digits.foldl (fun a d => a * 10 + (d.toNat - 48)) 0
        some (if neg then -(n : Int) else (n : Int))
      else none

/-! ### Go `net` IP parsing, on the fragment observable by this code -/

/-- One dot-separated field of a dotted-quad IPv4 literal: nonempty,
all decimal digits, value at most 255 (Go `dtoi` plus the `> 0xFF`
check in `parseIPv4`). -/
def parseDecByte (l : List Char) : Option Nat :=
  if l = [] then none
  else if l.all Char.isDigit then
    let n : Nat := l.foldl (fun a d => a * 10 + (d.toNat - 48)) 0
    if n ≤ 255 then some n else none
  else none

/-- A decimal natural (used for CIDR prefix lengths), nonempty and all
digits. -/
def parseDecNat (l : List Char) : Option Nat :=
  if l = [] then none
  else if l.all Char.isDigit then
    some (l.foldl (fun a d => a * 10 + (d.toNat - 48)) 0)
  else none

/-- Go `parseIPv4`: exactly four dot-separated byte fields consuming
the whole input. -/
def goParseIPv4Chars (s : List Char) : Option (Nat × Nat × Nat × Nat) :=
  match splitOnChar '.' s with
  | [a, b, c, d] =>
    match parseDecByte a, parseDecByte b, parseDecByte c, parseDecByte d with
    | some x, some y, some z, some w => some (x, y, z, w)
    | _, _, _, _ => none
  | _ => none

/-- Hexadecimal digit test (Go `xtoi` accepts `0-9`, `a-f`, `A-F`). -/
def isHexDigitChar (c : Char) : Bool :=
  c.isDigit || ('a' ≤ c && c ≤ 'f') || ('A' ≤ c && c ≤ 'F')

/-- Value of one hexadecimal digit. -/
def hexVal (c : Char) : Nat :=
  if c.isDigit then c.toNat - 48
  else if 'a' ≤ c ∧ c ≤ 'f' then c.toNat - 87
  else c.toNat - 55

/-- Go `xtoi` followed by `parseIPv6`'s `n > 0xFFFF` check: consume a
nonempty run of hex digits whose value fits in 16 bits, returning the
value and the unconsumed remainder. -/
def parseHex16 (s : List Char) : Option (Nat × List Char) :=
  let ds := s.takeWhile isHexDigitChar
  if ds = [] then none
  else
    let n := ds.foldl (fun a c => a * 16 + hexVal c) 0
    if n > 65535 then none else some (n, s.drop ds.length)

/-- Final checks of Go `parseIPv6`: nothing unconsumed; a short address
needs an ellipsis and is zero-expanded at the recorded byte position; a
full 16-byte address must not also contain an ellipsis. -/
def finishIPv6 (s : List Char) (acc : List Nat) (ellipsis : Option Nat) :
    Option (List Nat) :=
  if s ≠ [] then none
  else if acc.length < 16 then
    match ellipsis with
    | none => none
    | some e => some (acc.take e ++ List.replicate (16 - acc.length) 0 ++ acc.drop e)
  else
    match ellipsis with
    | some _ => none
    | none => some acc

/-- Main loop of Go `parseIPv6`: repeatedly read a 16-bit hex group,
handle a trailing embedded IPv4 address, and track the `::` ellipsis.
`fuel` structurally bounds the recursion; every recursive call strictly
shrinks the input, so `length + 2` fuel never runs out. -/
def parseIPv6Main : Nat → List Char → List Nat → Option Nat → Option (List Nat)
  | 0, _, _, _ => none
  | fuel + 1, s, acc, ellipsis =>
    if acc.length ≥ 16 then finishIPv6 s acc ellipsis
    else
      match parseHex16 s with
      | none => none
      | some (n, rest) =>
        if rest.head? = some '.' then
          if ellipsis = none ∧ acc.length ≠ 12 then none
          else if acc.length + 4 > 16 then none
          else
            match goParseIPv4Chars s with
            | none => none
            | some (a, b, c, d) => finishIPv6 [] (acc ++ [a, b, c, d]) ellipsis
        else
          let acc2 := acc ++ [n / 256, n % 256]
          match rest with
          | [] => finishIPv6 [] acc2 ellipsis
          | ':' :: [] => none
          | ':' :: ':' :: rest2 =>
            match ellipsis with
            | some _ => none
            | none =>
              if rest2 = [] then finishIPv6 [] acc2 (some acc2.length)
              else parseIPv6Main fuel rest2 acc2 (some acc2.length)
          | ':' :: rest2 => parseIPv6Main fuel rest2 acc2 ellipsis
          | _ => none

/-- Go `parseIPv6` (zone suffixes are not modelled; no claim uses
them): 16 result bytes. -/
def goParseIPv6 (s : List Char) : Option (List Nat) :=
  match s with
  | ':' :: ':' :: rest =>
    if rest = [] then some (List.replicate 16 0)
    else parseIPv6Main (rest.length + 2) rest [] (some 0)
  | _ => parseIPv6Main (s.length + 2) s [] none

/-- A parsed Go `net.IP`: either the 4-byte form or the 16-byte form. -/
inductive GoIP
  | v4 (a b c d : Nat)
  | v6 (bytes : List Nat)
deriving Repr, DecidableEq

/-- Go `IP.To4`: the 4-byte form itself, or a 16-byte IPv4-mapped
address (ten zero bytes then `0xff 0xff`); `none` otherwise. -/
def GoIP.to4 : GoIP → Option (Nat × Nat × Nat × Nat)
  | .v4 a b c d => some (a, b, c, d)
  | .v6 bs =>
    match bs with
    | [0, 0, 0, 0, 0, 0, 0, 0, 0, 0, 255, 255, a, b, c, d] => some (a, b, c, d)
    | _ => none

/-- First `'.'` or `':'` in the string decides the address family
(the dispatch loop of Go `net.ParseIP`). -/
def firstDotOrColon : List Char → Option Char
  | [] => none
  | c :: rest => if c = '.' ∨ c = ':' then some c else firstDotOrColon rest

/-- Go `net.ParseIP`. -/
def goParseIP (s : String) : Option GoIP :=
  match firstDotOrColon s.toList with
  | some '.' => (goParseIPv4Chars s.toList).map (fun p => GoIP.v4 p.1 p.2.1 p.2.2.1 p.2.2.2)
  | some ':' => (goParseIPv6 s.toList).map GoIP.v6
  | _ => none

/-- `net.ParseIP(s)` succeeded and `To4()` is non-nil: `s` denotes an
IPv4 address (the acceptance condition of the `outbound_addr` option). -/
def isGoIPv4Literal (s : String) : Bool :=
  match goParseIP s with
  | some ip => (GoIP.to4 ip).isSome
  | none => false

/-- `net.ParseIP(s)` succeeded and `To4()` is nil: `s` denotes a plain
IPv6 address (the acceptance condition of the `outbound_addr6`
option). -/
def isGoIPv6Literal (s : String) : Bool :=
  match goParseIP s with
  | some ip => (GoIP.to4 ip).isNone
  | none => false

/-- The 32-bit value of a dotted quad. -/
def ipv4Num (a b c d : Nat) : Nat :=
  ((a * 256 + b) * 256 + c) * 256 + d

/-- Go `IP.String()` on a 4-byte address holding the 32-bit value `n`. -/
def ipv4NumToString (n : Nat) : String :=
  toString (n / 16777216 % 256) ++ "." ++ toString (n / 65536 % 256) ++ "."
    ++ toString (n / 256 % 256) ++ "." ++ toString (n % 256)

/-- Go `IP.Mask(CIDRMask(pfx, 32))` on the 32-bit value: clear the low
`32 - pfx` bits. -/
def maskIPv4 (pfx ip : Nat) : Nat :=
  ip / 2 ^ (32 - pfx) * 2 ^ (32 - pfx)

/-- Go `net.ParseCIDR` restricted to IPv4 dotted-quad CIDRs, returning
the masked network number and the prefix length.  (Go also parses IPv6
CIDRs; the only caller passing one through this code path would have it
rejected earlier by the option parser's `To4() == nil` check, with the
same observable error.) -/
def goParseCIDR4 (s : String) : Option (Nat × Nat) :=
  match splitOnChar '/' s.toList with
  | [ipPart, prefPart] =>
    match goParseIPv4Chars ipPart, parseDecNat prefPart with
    | some (a, b, c, d), some n =>
      if n ≤ 32 then some (maskIPv4 n (ipv4Num a b c d), n) else none
    | _, _ => none
  | _ => none

/-! ### Option parsing (`parseSlirp4netnsNetworkOptions`) -/

/-- Engine-wide inputs the parser reads from the `Runtime`: the
configured extra network command options, the no-pivot-root default,
and the set of local interface names that `net.InterfaceByName`
resolves. -/
structure SlirpEnv where
  networkCmdOptions : List String
  noPivotRoot : Bool
  interfaces : List String
deriving Repr, DecidableEq

/-- `slirp4netnsNetworkOptions` (field for field). -/
structure Slirp4netnsNetworkOptions where
  cidr : String
  disableHostLoopback : Bool
  enableIPv6 : Bool
  isSlirpHostForward : Bool
  noPivotRoot : Bool
  mtu : Int
  outboundAddr : String
  outboundAddr6 : String
deriving Repr, DecidableEq

/-- Modelled from the spec: the preset default MTU constant
(`slirp4netnsMTU`, defined outside this file's source); spec §3 calls
it a "default fixed constant".  The concrete value is immaterial to
every claim; 65520 is slirp4netns's default. -/
def slirp4netnsMTU : Int := 65520

/-- Modelled from the spec: the "well-known fixed address for the
helper-native subnet" (`slirp4netnsIP`, defined outside this file's
source) used as the default child IP. -/
def slirp4netnsIP : String := "10.0.2.100"

/-- One iteration of the option loop: split at the first `'='`, then
the `switch` on the key.  Messages mirror the Go `errors.Errorf`
format strings. -/
def applySlirp4netnsOption (env : SlirpEnv) (acc : Slirp4netnsNetworkOptions)
    (o : String) : Except String Slirp4netnsNetworkOptions :=
  match goSplitN2Eq o with
  | [option, value] =>
    if option = "cidr" then
      match goParseCIDR4 value with
      | some _ => .ok { acc with cidr := value }
      | none => .error ("invalid cidr " ++ goQuote value)
    else if option = "port_handler" then
      if value = "slirp4netns" then .ok { acc with isSlirpHostForward := true }
      else if value = "rootlesskit" then .ok { acc with isSlirpHostForward := false }
      else .error ("unknown port_handler for slirp4netns: " ++ goQuote value)
    else if option = "allow_host_loopback" then
      if value = "true" then .ok { acc with disableHostLoopback := false }
      else if value = "false" then .ok { acc with disableHostLoopback := true }
      else .error ("invalid value of allow_host_loopback for slirp4netns: " ++ goQuote value)
    else if option = "enable_ipv6" then
      if value = "true" then .ok { acc with enableIPv6 := true }
      else if value = "false" then .ok { acc with enableIPv6 := false }
      else .error ("invalid value of enable_ipv6 for slirp4netns: " ++ goQuote value)
    else if option = "outbound_addr" then
      if isGoIPv4Literal value then .ok { acc with outboundAddr := value }
      else if env.interfaces.contains value then .ok { acc with outboundAddr := value }
      else .error ("invalid outbound_addr " ++ goQuote value)
    else if option = "outbound_addr6" then
      if isGoIPv6Literal value then .ok { acc with outboundAddr6 := value }
      else if env.interfaces.contains value then .ok { acc with outboundAddr6 := value }
      else .error ("invalid outbound_addr6: " ++ goQuote value)
    else if option = "mtu" then
      match goAtoi value with
      | none => .error ("invalid mtu " ++ goQuote value)
      | some m => if m < 68 then .error ("invalid mtu " ++ goQuote value) else .ok { acc with mtu := m }
    else .error ("unknown option for slirp4netns: " ++ goQuote o)
  | _ => .error ("unknown option for slirp4netns: " ++ goQuote o)

/-- The option loop: apply each entry in order, stopping at the first
error (later entries override earlier ones for the same key). -/
def parseSlirp4netnsLoop (env : SlirpEnv) (acc : Slirp4netnsNetworkOptions) :
    List String → Except String Slirp4netnsNetworkOptions
  | [] => .ok acc
  | o :: rest =>
    match applySlirp4netnsOption env acc o with
    | .error e => .error e
    | .ok acc2 => parseSlirp4netnsLoop env acc2 rest

/-- `parseSlirp4netnsNetworkOptions`: engine-wide options prepended to
the caller's, applied to the default record (loopback disabled, preset
MTU, inherited no-pivot-root; all other fields Go zero values). -/
def parseSlirp4netnsNetworkOptions (env : SlirpEnv) (extraOptions : List String) :
    Except String Slirp4netnsNetworkOptions :=
  parseSlirp4netnsLoop env
    { cidr := ""
      disableHostLoopback := true
      enableIPv6 := false
      isSlirpHostForward := false
      noPivotRoot := env.noPivotRoot
      mtu := slirp4netnsMTU
      outboundAddr := ""
      outboundAddr6 := "" }
    (env.networkCmdOptions ++ extraOptions)

/-! ### Feature set and command construction -/

/-- `slirpFeatures` (field for field). -/
structure SlirpFeatures where
  HasDisableHostLoopback : Bool
  HasMTU : Bool
  HasEnableSandbox : Bool
  HasEnableSeccomp : Bool
  HasCIDR : Bool
  HasOutboundAddr : Bool
  HasIPv6 : Bool
deriving Repr, DecidableEq

/-- A probe result with every capability absent. -/
def noSlirpFeatures : SlirpFeatures :=
  { HasDisableHostLoopback := false, HasMTU := false, HasEnableSandbox := false
    HasEnableSeccomp := false, HasCIDR := false, HasOutboundAddr := false
    HasIPv6 := false }

/-- A probe result with every capability present. -/
def allSlirpFeatures : SlirpFeatures :=
  { HasDisableHostLoopback := true, HasMTU := true, HasEnableSandbox := true
    HasEnableSeccomp := true, HasCIDR := true, HasOutboundAddr := true
    HasIPv6 := true }

/-- `createBasicSlirp4netnsCmdArgs`: the guarded appends and the four
error returns, in source order.  The loopback, MTU, sandbox and
seccomp flags are appended only when the feature is present (no error
otherwise); cidr, IPv6 and the outbound addresses error when requested
without the capability. -/
def createBasicSlirp4netnsCmdArgs (o : Slirp4netnsNetworkOptions)
    (f : SlirpFeatures) : Except String (List String) :=
  let cmdArgs : List String := []
  let cmdArgs := if o.disableHostLoopback ∧ f.HasDisableHostLoopback then
      cmdArgs ++ ["--disable-host-loopback"] else cmdArgs
  let cmdArgs := if o.mtu > -1 ∧ f.HasMTU then
      cmdArgs ++ ["--mtu=" ++ toString o.mtu] else cmdArgs
  let cmdArgs := if ¬o.noPivotRoot ∧ f.HasEnableSandbox then
      cmdArgs ++ ["--enable-sandbox"] else cmdArgs
  let cmdArgs := if f.HasEnableSeccomp then
      cmdArgs ++ ["--enable-seccomp"] else cmdArgs
  if o.cidr ≠ "" ∧ ¬f.HasCIDR then .error "cidr not supported"
  else
    let cmdArgs := if o.cidr ≠ "" then cmdArgs ++ ["--cidr=" ++ o.cidr] else cmdArgs
    if o.enableIPv6 ∧ ¬f.HasIPv6 then .error "enable_ipv6 not supported"
    else
      let cmdArgs := if o.enableIPv6 then cmdArgs ++ ["--enable-ipv6"] else cmdArgs
      if o.outboundAddr ≠ "" ∧ ¬f.HasOutboundAddr then .error "outbound_addr not supported"
      else
        let cmdArgs := if o.outboundAddr ≠ "" then
            cmdArgs ++ ["--outbound-addr=" ++ o.outboundAddr] else cmdArgs
        if o.outboundAddr6 ≠ "" ∧ (¬f.HasOutboundAddr ∨ ¬f.HasIPv6) then
          .error "outbound_addr6 not supported"
        else if o.outboundAddr6 ≠ "" ∧ ¬o.enableIPv6 then
          .error "enable_ipv6=true is required for outbound_addr6"
        else
          let cmdArgs := if o.outboundAddr6 ≠ "" then
              cmdArgs ++ ["--outbound-addr6=" ++ o.outboundAddr6] else cmdArgs
          .ok cmdArgs

/-! ### Binary resolution in `setupSlirp4netns` -/

/-- Outcome of the binary-resolution prelude of `setupSlirp4netns`:
either the setup call returns `nil` at once — an advisory
`logrus.Errorf` line is emitted and no helper process is ever started —
or it proceeds to launch the helper at the resolved path. -/
inductive SlirpPathResolution
  | degraded (advisoryLog : String)
  | run (path : String)
deriving Repr, DecidableEq

/-- Lines 240-248: use the configured `NetworkCmdPath` when nonempty;
otherwise consult `exec.LookPath("slirp4netns")`, and on lookup failure
log and return `nil` without starting anything. -/
def resolveSlirp4netnsBinary (configPath : String)
    (lookupResult : Except String String) : SlirpPathResolution :=
  if configPath = "" then
    match lookupResult with
    | .error e =>
      .degraded ("could not find slirp4netns, the network namespace won't be configured: " ++ e)
    | .ok p => .run p
  else .run configPath

/-! ### The `waitForSync` readiness loop -/

/-- Result of the `syscall.Wait4(pid, WNOHANG)` probe performed when a
read deadline expires. -/
inductive SlirpWaitStatus
  | running
  | exited (code : Nat)
  | signaled (sig : Nat)
  | stopped
  | waitErr (msg : String)
deriving Repr, DecidableEq

/-- One iteration's observable interaction of `waitForSync` with the
operating system: the deadline set fails, or the pipe read yields data,
end-of-file, a timeout (followed by the child probe), or another
error. -/
inductive SyncEvent
  | deadlineErr (msg : String)
  | readOk
  | readEOF
  | readErr (msg : String)
  | readTimeout (st : SlirpWaitStatus)
deriving Repr, DecidableEq

/-- The value `waitForSync` returns: `ready` is the `nil` return; the
rest mirror its error returns.  `helperFailed` is the only constructor
embedding the child's captured log contents (the log file seeked to
its start and read in full). -/
inductive SyncResult
  | ready
  | deadlineError (msg : String)
  | statusError (msg : String)
  | helperFailed (log : String)
  | killedBySignal
  | pipeReadError (msg : String)
deriving Repr, DecidableEq

/-- Whether a result embeds the child's log contents. -/
def SyncResult.embedsLog : SyncResult → Bool
  | .helperFailed _ => true
  | _ => false

/-- One iteration of the `waitForSync` loop body (lines 360-396):
`none` means the loop continues to the next iteration.  A non-timeout
read error (end-of-file included) returns the wrapped read error; on a
timeout, the child probe decides: probe failure returns a status error,
a still-running (or merely stopped) child continues the loop, a normal
exit returns the log contents, a signal death returns the killed
error. -/
def waitForSyncStep (logContent : String) : SyncEvent → Option SyncResult
  | .deadlineErr m => some (.deadlineError m)
  | .readOk => some .ready
  | .readEOF => some (.pipeReadError "EOF")
  | .readErr m => some (.pipeReadError m)
  | .readTimeout st =>
    match st with
    | .waitErr m => some (.statusError m)
    | .running => none
    | .exited _ => some (.helperFailed logContent)
    | .signaled _ => some .killedBySignal
    | .stopped => none

/-- `waitForSync` as a fold of the loop body over a finite trace of
per-iteration events; `none` means the loop is still running after the
observed events (it has not returned). -/
def waitForSync (logContent : String) : List SyncEvent → Option SyncResult
  | [] => none
  | e :: rest =>
    match waitForSyncStep logContent e with
    | some r => some r
    | none => waitForSync logContent rest

/-- An event on which `waitForSync`'s own monitoring syscalls fail
(`SetDeadline` or `Wait4`), as opposed to the pipe/child behaviour the
claims describe. -/
def SyncEvent.isMonitorFailure : SyncEvent → Bool
  | .deadlineErr _ => true
  | .readTimeout (.waitErr _) => true
  | _ => false

/-! ### Child-IP computation in `setupRootlessPortMappingViaRLK` -/

/-- Byte-wise `cidr.IP[len(cidr.IP)-1] += 100` on the 32-bit network
number: add 100 to the final byte, wrapping modulo 256. -/
def lastByteAdd100 (n : Nat) : Nat :=
  n / 256 * 256 + (n % 256 + 100) % 256

/-- The labeled `outer` loop over `ctr.state.NetworkStatus`: the first
assigned address whose `IP.To4()` is non-nil, scanning results and
their addresses in order (each entry modelled as `To4()` of one
address). -/
def firstNetworkStatusIPv4 (status : List (List (Option Nat))) : Option Nat :=
  status.findSome? (fun r => r.findSome? id)

/-- Lines 427-447: the child IP defaults to `slirp4netnsIP`, is
replaced by the 100-incremented final byte of the masked network
address when a custom CIDR is set (a parse failure is an error), and
is finally overridden by the first known IPv4 address from the
container's network status. -/
def computeRootlessPortChildIP (slirp4CIDR : String)
    (status : List (List (Option Nat))) : Except String String :=
  let base : Except String String :=
    if slirp4CIDR = "" then .ok slirp4netnsIP
    else
      match goParseCIDR4 slirp4CIDR with
      | none => .error "failed to parse slirp4netns cidr"
      | some (net, _) => .ok (ipv4NumToString (lastByteAdd100 net))
  match base with
  | .error e => .error e
  | .ok ip =>
    match firstNetworkStatusIPv4 status with
    | some ip4 => .ok (ipv4NumToString ip4)
    | none => .ok ip

/-! ### Helper-native port registration (`setupRootlessPortMappingViaSlirp`) -/

/-- A port mapping as supplied per container. -/
structure PortMapping where
  protocol : String
  hostIP : String
  hostPort : Int
  containerPort : Int
deriving Repr, DecidableEq

/-- The `arguments` object of one `add_hostfwd` control-socket
command (`slirp4netnsCmdArg`). -/
structure Slirp4netnsCmdArg where
  proto : String
  hostAddr : String
  hostPort : Int
  guestAddr : String
  guestPort : Int
deriving Repr, DecidableEq

/-- Lines 540-552: the request built for one mapping; an empty host IP
defaults to the wildcard address. -/
def addHostfwdArgs (m : PortMapping) : Slirp4netnsCmdArg :=
  { proto := m.protocol
    hostAddr := if m.hostIP = "" then "0.0.0.0" else m.hostIP
    hostPort := m.hostPort
    guestAddr := ""
    guestPort := m.containerPort }

/-- What one fresh control-socket connection for one mapping yields:
an I/O failure at one of the four steps, an unparseable response, or a
parsed JSON object (its fields as key/value pairs; only the `"error"`
key is consulted). -/
inductive SlirpApiResponse
  | dialError (msg : String)
  | writeError (msg : String)
  | shutdownError (msg : String)
  | readError (msg : String)
  | notJSON
  | jsonObject (fields : List (String × String))
deriving Repr, DecidableEq

/-- Lines 530-581: process the mappings in order, one fresh connection
each.  Returns the `add_hostfwd` registrations that were confirmed
successful — these stay in place in the helper, there is no rollback —
together with the overall result; the first failing mapping aborts the
loop, skipping everything after it. -/
def setupRootlessPortMappingViaSlirp :
    List (PortMapping × SlirpApiResponse) → List Slirp4netnsCmdArg × Except String Unit
  | [] => ([], .ok ())
  | (m, resp) :: rest =>
    match resp with
    | .dialError msg => ([], .error ("cannot open connection: " ++ msg))
    | .writeError msg => ([], .error ("cannot write to control socket: " ++ msg))
    | .shutdownError msg => ([], .error ("cannot shutdown the socket: " ++ msg))
    | .readError msg => ([], .error ("cannot read from control socket: " ++ msg))
    | .notJSON => ([], .error "error parsing error status from slirp4netns")
    | .jsonObject fields =>
      match fields.lookup "error" with
      | some e =>
        ([], .error ("error from slirp4netns while setting up port redirection: " ++ e))
      | none =>
        let r := setupRootlessPortMappingViaSlirp rest
        (addHostfwdArgs m :: r.1, r.2)

/-! ### Helper lemmas -/

theorem splitFirstEq_eq_none (l : List Char) (h : '=' ∉ l) :
    splitFirstEq l = none := by
  induction l with
  | nil => rfl
  | cons c rest ih =>
    have hc : ¬c = '=' := by
      intro hc
      exact h (hc ▸ List.mem_cons_self c rest)
    have hr : '=' ∉ rest := fun hm => h (List.mem_cons_of_mem c hm)
    simp [splitFirstEq, hc, ih hr]

theorem splitFirstEq_append (k v : List Char) (h : '=' ∉ k) :
    splitFirstEq (k ++ '=' :: v) = some (k, v) := by
  induction k with
  | nil => simp [splitFirstEq]
  | cons c rest ih =>
    have hc : ¬c = '=' := by
      intro hc
      exact h (hc ▸ List.mem_cons_self c rest)
    have hr : '=' ∉ rest := fun hm => h (List.mem_cons_of_mem c hm)
    simp [splitFirstEq, hc, ih hr]

theorem goSplitN2Eq_of_no_eq (s : String) (h : '=' ∉ s.toList) :
    goSplitN2Eq s = [s] := by
  unfold goSplitN2Eq
  rw [splitFirstEq_eq_none s.toList h]

theorem goSplitN2Eq_keyval (k v : String) (hk : '=' ∉ k.toList) :
    goSplitN2Eq (k ++ "=" ++ v) = [k, v] := by
  have hlist : (k ++ "=" ++ v).toList = k.toList ++ '=' :: v.toList := by
    show (k ++ "=" ++ v).data = k.data ++ '=' :: v.data
    rw [String.data_append, String.data_append, List.append_assoc]
    rfl
  unfold goSplitN2Eq
  rw [hlist, splitFirstEq_append k.toList v.toList hk]
  rfl

theorem maskIPv4_add_100 (pfx raw : Nat) (hroom : 100 < 2 ^ (32 - pfx)) :
    lastByteAdd100 (maskIPv4 pfx raw) = maskIPv4 pfx raw + 100 := by
  have h7 : 7 ≤ 32 - pfx := by
    by_contra h
    push_neg at h
    have h64 : 2 ^ (32 - pfx) ≤ 2 ^ 6 := Nat.pow_le_pow_right (by norm_num) (by omega)
    norm_num at h64
    omega
  have hdvd : 128 ∣ maskIPv4 pfx raw := by
    have h1 : (2 : Nat) ^ 7 ∣ 2 ^ (32 - pfx) := pow_dvd_pow 2 h7
    have h2 : (2 : Nat) ^ (32 - pfx) ∣ maskIPv4 pfx raw := by
      unfold maskIPv4
      exact dvd_mul_left _ _
    have h128 : (128 : Nat) = 2 ^ 7 := by norm_num
    exact h128 ▸ h1.trans h2
  unfold lastByteAdd100
  omega

theorem waitForSync_cases_aux (logContent : String) :
    ∀ (tr : List SyncEvent) (r : SyncResult),
      (∀ e ∈ tr, SyncEvent.isMonitorFailure e = false) →
      waitForSync logContent tr = some r →
      r = .ready ∨ (∃ l, r = .helperFailed l) ∨ r = .killedBySignal
        ∨ (∃ m, r = .pipeReadError m)
  | [], r, _, hr => by simp [waitForSync] at hr
  | e :: rest, r, hgood, hr => by
    have hge : SyncEvent.isMonitorFailure e = false := hgood e (List.mem_cons_self e rest)
    have hgr : ∀ x ∈ rest, SyncEvent.isMonitorFailure x = false :=
      fun x hx => hgood x (List.mem_cons_of_mem e hx)
    cases e with
    | deadlineErr m => simp [SyncEvent.isMonitorFailure] at hge
    | readOk =>
      simp [waitForSync, waitForSyncStep] at hr
      exact Or.inl hr.symm
    | readEOF =>
      simp [waitForSync, waitForSyncStep] at hr
      exact Or.inr (Or.inr (Or.inr ⟨"EOF", hr.symm⟩))
    | readErr m =>
      simp [waitForSync, waitForSyncStep] at hr
      exact Or.inr (Or.inr (Or.inr ⟨m, hr.symm⟩))
    | readTimeout st =>
      cases st with
      | running =>
        exact waitForSync_cases_aux logContent rest r hgr
          (by simpa [waitForSync, waitForSyncStep] using hr)
      | exited c =>
        simp [waitForSync, waitForSyncStep] at hr
        exact Or.inr (Or.inl ⟨logContent, hr.symm⟩)
      | signaled s =>
        simp [waitForSync, waitForSyncStep] at hr
        exact Or.inr (Or.inr (Or.inl hr.symm))
      | stopped =>
        exact waitForSync_cases_aux logContent rest r hgr
          (by simpa [waitForSync, waitForSyncStep] using hr)
      | waitErr m => simp [SyncEvent.isMonitorFailure] at hge

theorem waitForSync_replicate_running (logContent : String) (n : Nat) :
    waitForSync logContent (List.replicate n (SyncEvent.readTimeout .running)) = none := by
  induction n with
  | zero => rfl
  | succ k ih => simpa [List.replicate_succ, waitForSync, waitForSyncStep] using ih

/-! ### Claim theorems -/

/-- C4 (counterexample): when the child closes the readiness pipe
without writing, the parent's read yields end-of-file and `waitForSync`
fails — but the returned error is the wrapped pipe-read error, which
does not carry the child's captured log contents ("child diagnostics"
here), contradicting the claim that the failure is diagnosed via the
log file. -/
theorem eof_error_lacks_log_cex :
    waitForSync "child diagnostics" [SyncEvent.readEOF]
        = some (SyncResult.pipeReadError "EOF")
      ∧ SyncResult.embedsLog (SyncResult.pipeReadError "EOF") = false :=
  ⟨rfl, rfl⟩

/-- C4 (amended): an end-of-file read makes `waitForSync` fail
immediately with the wrapped pipe-read error, which never embeds the
log contents; the log is attached to an error only on the separate
timeout-then-child-exited path. -/
theorem eof_read_gives_pipe_error (logContent : String) (rest : List SyncEvent) :
    waitForSync logContent (SyncEvent.readEOF :: rest)
        = some (SyncResult.pipeReadError "EOF")
      ∧ SyncResult.embedsLog (SyncResult.pipeReadError "EOF") = false :=
  ⟨rfl, rfl⟩

/-- C5: on any trace free of monitoring-syscall failures, `waitForSync`
returns only upon readiness, upon the child having exited or been
signaled (the log-embedding failure or the killed-by-signal error), or
upon a pipe read error other than a timeout; a deadline expiry with the
child still running continues the loop, and arbitrarily many such
expiries never produce a return — there is no total wall-clock
ceiling. -/
theorem waitForSync_no_total_ceiling (logContent : String) (tr : List SyncEvent)
    (n : Nat) (r : SyncResult)
    (hgood : ∀ e ∈ tr, SyncEvent.isMonitorFailure e = false)
    (hr : waitForSync logContent tr = some r) :
    (r = .ready ∨ (∃ l, r = .helperFailed l) ∨ r = .killedBySignal
        ∨ (∃ m, r = .pipeReadError m))
      ∧ waitForSync logContent (List.replicate n (SyncEvent.readTimeout .running)) = none
      ∧ waitForSyncStep logContent (SyncEvent.readTimeout .running) = none :=
  ⟨waitForSync_cases_aux logContent tr r hgood hr,
    waitForSync_replicate_running logContent n, rfl⟩

theorem waitForSync_no_total_ceiling_witness :
    (SyncResult.ready = .ready ∨ (∃ l, SyncResult.ready = .helperFailed l)
        ∨ SyncResult.ready = .killedBySignal
        ∨ (∃ m, SyncResult.ready = .pipeReadError m))
      ∧ waitForSync "" (List.replicate 3 (SyncEvent.readTimeout .running)) = none
      ∧ waitForSyncStep "" (SyncEvent.readTimeout .running) = none :=
  waitForSync_no_total_ceiling "" [SyncEvent.readOk] 3 .ready (by decide) rfl

/-- C6: with no configured helper path and a failing
`exec.LookPath("slirp4netns")`, `setupSlirp4netns` resolves to the
degraded outcome: it returns `nil` (no error) without starting any
helper process, emitting only the advisory log line. -/
theorem missing_slirp_binary_degrades (configPath e : String)
    (lookupResult : Except String String)
    (hpath : configPath = "") (hlookup : lookupResult = .error e) :
    resolveSlirp4netnsBinary configPath lookupResult =
      .degraded ("could not find slirp4netns, the network namespace won't be configured: " ++ e) := by
  subst hpath
  subst hlookup
  rfl

theorem missing_slirp_binary_degrades_witness :
    resolveSlirp4netnsBinary "" (.error "exec: slirp4netns: executable file not found in $PATH") =
      .degraded ("could not find slirp4netns, the network namespace won't be configured: "
        ++ "exec: slirp4netns: executable file not found in $PATH") :=
  missing_slirp_binary_degrades "" _ _ rfl rfl

/-- C7: whenever every earlier iteration continued the loop, a deadline
expiry that finds the child exited normally makes `waitForSync` fail
with the error embedding the log file's full contents (the file is
seeked to its start and read whole, modelled by the `logContent`
snapshot), while a child killed by a signal yields the
killed-by-signal error instead. -/
theorem child_exit_reports_log (logContent : String) (code sig : Nat)
    (pre : List SyncEvent)
    (hpre : ∀ e ∈ pre, waitForSyncStep logContent e = none) :
    waitForSync logContent (pre ++ [SyncEvent.readTimeout (.exited code)])
        = some (.helperFailed logContent)
      ∧ waitForSync logContent (pre ++ [SyncEvent.readTimeout (.signaled sig)])
        = some .killedBySignal := by
  induction pre with
  | nil => exact ⟨rfl, rfl⟩
  | cons e rest ih =>
    have he : waitForSyncStep logContent e = none := hpre e (List.mem_cons_self e rest)
    have hrest : ∀ x ∈ rest, waitForSyncStep logContent x = none :=
      fun x hx => hpre x (List.mem_cons_of_mem e hx)
    have hih := ih hrest
    refine ⟨?_, ?_⟩
    · simpa [List.cons_append, waitForSync, he] using hih.1
    · simpa [List.cons_append, waitForSync, he] using hih.2

theorem child_exit_reports_log_witness :
    waitForSync "helper log text" ([SyncEvent.readTimeout .running]
          ++ [SyncEvent.readTimeout (.exited 1)])
        = some (.helperFailed "helper log text")
      ∧ waitForSync "helper log text" ([SyncEvent.readTimeout .running]
          ++ [SyncEvent.readTimeout (.signaled 9)])
        = some .killedBySignal :=
  child_exit_reports_log "helper log text" 1 9 [SyncEvent.readTimeout .running] (by decide)

/-- C9: parsing is a deterministic pure function of the engine defaults
(including the interface set consulted by `net.InterfaceByName`) and
the option list: a second run on equal inputs returns the same
`NetworkOptions`. -/
theorem parse_options_deterministic (env1 env2 : SlirpEnv)
    (opts1 opts2 : List String) (res : Slirp4netnsNetworkOptions)
    (henv : env1 = env2) (hopts : opts1 = opts2)
    (h : parseSlirp4netnsNetworkOptions env1 opts1 = .ok res) :
    parseSlirp4netnsNetworkOptions env2 opts2 = .ok res := by
  subst henv
  subst hopts
  exact h

theorem parse_options_deterministic_witness :
    parseSlirp4netnsNetworkOptions ⟨[], false, []⟩ ["mtu=1500"] =
      .ok { cidr := "", disableHostLoopback := true, enableIPv6 := false,
            isSlirpHostForward := false, noPivotRoot := false, mtu := 1500,
            outboundAddr := "", outboundAddr6 := "" } :=
  parse_options_deterministic ⟨[], false, []⟩ ⟨[], false, []⟩
    ["mtu=1500"] ["mtu=1500"] _ rfl rfl rfl

/-- C10: the option splitter cuts only at the first `'='`: a raw option
with no `'='` at all fails with the "unknown option" error even when it
equals a recognized key (the witness instantiates `s := "cidr"`), and
for a key/value pair everything after the first `'='` — further `'='`
characters included — is the verbatim value. -/
theorem option_split_first_equals (env : SlirpEnv)
    (acc : Slirp4netnsNetworkOptions) (s k v : String)
    (hs : '=' ∉ s.toList) (hk : '=' ∉ k.toList) :
    applySlirp4netnsOption env acc s
        = .error ("unknown option for slirp4netns: " ++ goQuote s)
      ∧ goSplitN2Eq (k ++ "=" ++ v) = [k, v] := by
  refine ⟨?_, goSplitN2Eq_keyval k v hk⟩
  unfold applySlirp4netnsOption
  rw [goSplitN2Eq_of_no_eq s hs]

theorem option_split_first_equals_witness :
    applySlirp4netnsOption ⟨[], false, []⟩
        { cidr := "", disableHostLoopback := true, enableIPv6 := false,
          isSlirpHostForward := false, noPivotRoot := false, mtu := 65520,
          outboundAddr := "", outboundAddr6 := "" } "cidr"
        = .error ("unknown option for slirp4netns: " ++ goQuote "cidr")
      ∧ goSplitN2Eq ("mtu" ++ "=" ++ "68=9") = ["mtu", "68=9"] :=
  option_split_first_equals ⟨[], false, []⟩ _ "cidr" "mtu" "68=9" (by decide) (by decide)

/-- C1 (counterexample): the default options request the host-loopback
disable flag and an MTU, yet against a FeatureSet lacking every
capability `createBasicSlirp4netnsCmdArgs` succeeds with an empty
argument vector: the requested options are silently dropped rather
than reported with an error naming them. -/
theorem builder_silent_drop_cex :
    createBasicSlirp4netnsCmdArgs
      { cidr := "", disableHostLoopback := true, enableIPv6 := false,
        isSlirpHostForward := false, noPivotRoot := false, mtu := 65520,
        outboundAddr := "", outboundAddr6 := "" }
      noSlirpFeatures = .ok [] := rfl

/-- C1 (amended): only the cidr, enable_ipv6, outbound_addr and
outbound_addr6 requests yield unsupported-feature errors when the
corresponding capability is absent (in source order, so each error is
reachable only when the earlier checks pass); the host-loopback
disable, MTU, sandbox and seccomp flags are silently omitted when
their capability is absent, as the final conjunct shows for a
capability-free FeatureSet. -/
theorem builder_unsupported_option_errors (o : Slirp4netnsNetworkOptions)
    (f : SlirpFeatures) :
    (o.cidr ≠ "" → f.HasCIDR = false →
        createBasicSlirp4netnsCmdArgs o f = .error "cidr not supported")
    ∧ ((o.cidr ≠ "" → f.HasCIDR = true) → o.enableIPv6 = true → f.HasIPv6 = false →
        createBasicSlirp4netnsCmdArgs o f = .error "enable_ipv6 not supported")
    ∧ ((o.cidr ≠ "" → f.HasCIDR = true) → (o.enableIPv6 = true → f.HasIPv6 = true) →
        o.outboundAddr ≠ "" → f.HasOutboundAddr = false →
        createBasicSlirp4netnsCmdArgs o f = .error "outbound_addr not supported")
    ∧ ((o.cidr ≠ "" → f.HasCIDR = true) → (o.enableIPv6 = true → f.HasIPv6 = true) →
        (o.outboundAddr ≠ "" → f.HasOutboundAddr = true) →
        o.outboundAddr6 ≠ "" → (f.HasOutboundAddr = false ∨ f.HasIPv6 = false) →
        createBasicSlirp4netnsCmdArgs o f = .error "outbound_addr6 not supported")
    ∧ (o.cidr = "" → o.enableIPv6 = false → o.outboundAddr = "" → o.outboundAddr6 = "" →
        createBasicSlirp4netnsCmdArgs o noSlirpFeatures = .ok []) := by
  refine ⟨?_, ?_, ?_, ?_, ?_⟩
  · intro hcidr hC
    simp [createBasicSlirp4netnsCmdArgs, hcidr, hC]
  · intro h1 h2 h3
    by_cases hc : o.cidr = ""
    · simp [createBasicSlirp4netnsCmdArgs, hc, h2, h3]
    · simp [createBasicSlirp4netnsCmdArgs, hc, h1 hc, h2, h3]
  · intro h1 h2 h3 h4
    by_cases hc : o.cidr = "" <;> cases hE : o.enableIPv6 <;>
      simp_all [createBasicSlirp4netnsCmdArgs]
  · intro h1 h2 h3 h4 h5
    by_cases hc : o.cidr = "" <;> cases hE : o.enableIPv6 <;>
      by_cases ha : o.outboundAddr = "" <;>
      rcases h5 with h5 | h5 <;>
      simp_all [createBasicSlirp4netnsCmdArgs]
  · intro h1 h2 h3 h4
    simp [createBasicSlirp4netnsCmdArgs, noSlirpFeatures, h1, h2, h3, h4]

theorem builder_unsupported_option_errors_witness :
    createBasicSlirp4netnsCmdArgs
      { cidr := "10.0.2.0/24", disableHostLoopback := true, enableIPv6 := false,
        isSlirpHostForward := false, noPivotRoot := false, mtu := 65520,
        outboundAddr := "", outboundAddr6 := "" }
      noSlirpFeatures = .error "cidr not supported" :=
  (builder_unsupported_option_errors
    { cidr := "10.0.2.0/24", disableHostLoopback := true, enableIPv6 := false,
      isSlirpHostForward := false, noPivotRoot := false, mtu := 65520,
      outboundAddr := "", outboundAddr6 := "" }
    noSlirpFeatures).1 (by decide) rfl

/-- C2 (counterexample): with the valid IPv6 literal `fd00::2`, parsing
`["enable_ipv6=false", "outbound_addr6=fd00::2"]` does not fail at
parse time: the parser accepts the list and records the address,
leaving IPv6 disabled. -/
theorem outbound_addr6_parse_time_cex :
    parseSlirp4netnsNetworkOptions ⟨[], false, []⟩
        ["enable_ipv6=false", "outbound_addr6=fd00::2"]
      = .ok { cidr := "", disableHostLoopback := true, enableIPv6 := false,
              isSlirpHostForward := false, noPivotRoot := false, mtu := 65520,
              outboundAddr := "", outboundAddr6 := "fd00::2" } := rfl

/-- C2 (amended): the parser never checks `enable_ipv6` when it parses
`outbound_addr6`; the requirement is enforced later, in
`createBasicSlirp4netnsCmdArgs`, against the final parsed value and
hence order-independently: with IPv6 left disabled the build fails
with the dedicated error, while the reversed order — address first,
`enable_ipv6=true` afterwards — parses and builds successfully. -/
theorem outbound_addr6_checked_at_build :
    parseSlirp4netnsNetworkOptions ⟨[], false, []⟩
        ["enable_ipv6=false", "outbound_addr6=fd00::2"]
      = .ok { cidr := "", disableHostLoopback := true, enableIPv6 := false,
              isSlirpHostForward := false, noPivotRoot := false, mtu := 65520,
              outboundAddr := "", outboundAddr6 := "fd00::2" }
    ∧ createBasicSlirp4netnsCmdArgs
        { cidr := "", disableHostLoopback := true, enableIPv6 := false,
          isSlirpHostForward := false, noPivotRoot := false, mtu := 65520,
          outboundAddr := "", outboundAddr6 := "fd00::2" }
        allSlirpFeatures
      = .error "enable_ipv6=true is required for outbound_addr6"
    ∧ parseSlirp4netnsNetworkOptions ⟨[], false, []⟩
        ["outbound_addr6=fd00::2", "enable_ipv6=true"]
      = .ok { cidr := "", disableHostLoopback := true, enableIPv6 := true,
              isSlirpHostForward := false, noPivotRoot := false, mtu := 65520,
              outboundAddr := "", outboundAddr6 := "fd00::2" }
    ∧ createBasicSlirp4netnsCmdArgs
        { cidr := "", disableHostLoopback := true, enableIPv6 := true,
          isSlirpHostForward := false, noPivotRoot := false, mtu := 65520,
          outboundAddr := "", outboundAddr6 := "fd00::2" }
        allSlirpFeatures
      = .ok ["--disable-host-loopback", "--mtu=65520", "--enable-sandbox",
             "--enable-seccomp", "--enable-ipv6", "--outbound-addr6=fd00::2"] :=
  ⟨rfl, rfl, rfl, rfl⟩

/-- C3: whenever a custom IPv4 CIDR is configured, the subnet is wide
enough to contain the address 100 past its base (`100 < 2 ^ (32 -
prefix)`, i.e. the CIDR has a 100th address), and the container's
network status holds no IPv4 address, the external-reexec forwarder's
fallback child IP is exactly the network base address plus 100 — for
`10.0.2.0/24`, the address `10.0.2.100`. -/
theorem rlk_child_ip_hundredth_address (s : String) (base pfx : Nat)
    (status : List (List (Option Nat)))
    (hparse : goParseCIDR4 s = some (base, pfx))
    (hroom : 100 < 2 ^ (32 - pfx))
    (hstatus : firstNetworkStatusIPv4 status = none) :
    computeRootlessPortChildIP s status = .ok (ipv4NumToString (base + 100)) := by
  have hs : ¬s = "" := by
    intro h
    rw [h] at hparse
    have hnone : goParseCIDR4 "" = none := rfl
    rw [hnone] at hparse
    exact Option.noConfusion hparse
  have hshape : ∃ raw, base = maskIPv4 pfx raw := by
    unfold goParseCIDR4 at hparse
    split at hparse
    · split at hparse
      · split at hparse
        · simp only [Option.some.injEq, Prod.mk.injEq] at hparse
          exact ⟨_, by rw [← hparse.1, hparse.2]⟩
        · exact absurd hparse (by simp)
      · exact absurd hparse (by simp)
    · exact absurd hparse (by simp)
  obtain ⟨raw, hb⟩ := hshape
  simp only [computeRootlessPortChildIP, hs, if_false, hparse, hstatus]
  rw [hb, maskIPv4_add_100 pfx raw hroom]

theorem rlk_child_ip_hundredth_address_witness :
    computeRootlessPortChildIP "10.0.2.0/24" [] = .ok (ipv4NumToString (167772672 + 100)) :=
  rlk_child_ip_hundredth_address "10.0.2.0/24" 167772672 24 [] rfl (by norm_num) rfl

/-- The mapping/response pairs of an all-JSON batch. -/
def jsonResponses (l : List (PortMapping × List (String × String))) :
    List (PortMapping × SlirpApiResponse) :=
  l.map (fun p => (p.1, SlirpApiResponse.jsonObject p.2))

/-- C8: the helper-native registration processes the mappings in order,
one fresh connection each; when every response object before some
mapping lacks an `"error"` key and that mapping's response contains
one, the loop returns the rejection error immediately, having
registered exactly the earlier mappings (which stay in place — no
rollback) and skipping everything after; and a batch whose responses
all lack the `"error"` key registers every mapping and succeeds. -/
theorem via_slirp_first_error_aborts
    (pre post : List (PortMapping × List (String × String)))
    (m : PortMapping) (fields : List (String × String)) (e : String)
    (hpre : ∀ p ∈ pre, p.2.lookup "error" = none)
    (herr : fields.lookup "error" = some e) :
    setupRootlessPortMappingViaSlirp
        (jsonResponses pre ++ (m, SlirpApiResponse.jsonObject fields) :: jsonResponses post)
      = (pre.map (fun p => addHostfwdArgs p.1),
          .error ("error from slirp4netns while setting up port redirection: " ++ e))
    ∧ setupRootlessPortMappingViaSlirp (jsonResponses pre)
      = (pre.map (fun p => addHostfwdArgs p.1), .ok ()) := by
  induction pre with
  | nil =>
    refine ⟨?_, rfl⟩
    simp [jsonResponses, setupRootlessPortMappingViaSlirp, herr]
  | cons p rest ih =>
    have hp : p.2.lookup "error" = none := hpre p (List.mem_cons_self p rest)
    have hrest : ∀ x ∈ rest, x.2.lookup "error" = none :=
      fun x hx => hpre x (List.mem_cons_of_mem p hx)
    have hih := ih hrest
    simp only [jsonResponses] at hih
    refine ⟨?_, ?_⟩
    · simp only [jsonResponses, List.map_cons, List.cons_append,
        setupRootlessPortMappingViaSlirp, hp, List.append_eq]
      rw [hih.1]
    · simp only [jsonResponses, List.map_cons,
        setupRootlessPortMappingViaSlirp, hp]
      rw [hih.2]

theorem via_slirp_first_error_aborts_witness :
    setupRootlessPortMappingViaSlirp
        (jsonResponses [(⟨"tcp", "", 8080, 80⟩, [("x", "y")])]
          ++ (⟨"udp", "1.1.1.1", 53, 53⟩,
              SlirpApiResponse.jsonObject [("error", "bad port")])
            :: jsonResponses [(⟨"tcp", "", 1, 2⟩, [])])
      = ([addHostfwdArgs ⟨"tcp", "", 8080, 80⟩],
          .error ("error from slirp4netns while setting up port redirection: " ++ "bad port"))
    ∧ setupRootlessPortMappingViaSlirp (jsonResponses [(⟨"tcp", "", 8080, 80⟩, [("x", "y")])])
      = ([addHostfwdArgs ⟨"tcp", "", 8080, 80⟩], .ok ()) := by
  have h := via_slirp_first_error_aborts
    [(⟨"tcp", "", 8080, 80⟩, [("x", "y")])]
    [(⟨"tcp", "", 1, 2⟩, [])]
    ⟨"udp", "1.1.1.1", 53, 53⟩
    [("error", "bad port")] "bad port" (by decide) rfl
  simpa using h
